import Mathlib

/-
Shallow embedding of the vitessce-jupyter local data-serving core:
URL-path resolution for data wrappers (src/vitessce/wrappers.py) and
port probing, background-server lifecycle, route registration and
coordination-value lookup (src/vitessce/widget.py).

Python `ValueError`s are modelled as `Except.error`; the `uuid4()` draws
minted at wrapper construction are supplied as explicit parameters; the
TCP probe `is_port_in_use` is abstracted as an `occupied : Nat → Bool`
oracle.  All definitions are executable.
-/

set_option maxRecDepth 8000

namespace Vitessce

/-- Characters of a string split on a separator character; the component
splitting used by Python `str.split` with a one-character separator. -/
def splitOnChar (sep : Char) : List Char → List (List Char)
  | [] => [[]]
  | c :: cs =>
    let r := splitOnChar sep cs
    if c = sep then [] :: r
    else
      match r with
      | h :: t => (c :: h) :: t
      | [] => [[c]]

/-- Python `s.split(sep)` for a one-character separator. -/
def pySplit (s : String) (sep : Char) : List String :=
  (splitOnChar sep s.data).map String.mk

/-- Python `sep.join(parts)`. -/
def pyJoin (sep : String) : List String → String
  | [] => ""
  | [x] => x
  | x :: xs => x ++ sep ++ pyJoin sep xs

/-- Python `s.startswith(p)`. -/
def pyStartsWith (s p : String) : Bool :=
  p.data.isPrefixOf s.data

/-- `str(PurePosixPath(s))` as used by `file_path_to_url_path`: repeated
slashes and `.` components are dropped (`..` is kept), a trailing slash is
dropped; with no components left the result is the root (`/`, or the
POSIX-special double slash `//`) or `.`. -/
def purePosixPathStr (s : String) : String :=
  let comps := (pySplit s '/').filter (fun c => c ≠ "" ∧ c ≠ ".")
  let root :=
    if pyStartsWith s "//" ∧ ¬ pyStartsWith s "///" then "//"
    else if pyStartsWith s "/" then "/"
    else ""
  if comps.isEmpty then (if root.isEmpty then "." else root)
  else root ++ pyJoin "/" comps

/-- wrappers.py `file_path_to_url_path` (lines 14-19). -/
def file_path_to_url_path (local_path : String) (prepend_slash : Bool := true) : String :=
  let url_path := purePosixPathStr local_path
  if prepend_slash ∧ ¬ pyStartsWith url_path "/" then "/" ++ url_path else url_path

/-- wrappers.py `AbstractWrapper._get_route_str` (lines 137-138): the
indexed-policy route path for a dataset uid, an object index, and extra
path segments. -/
def get_route_str (dataset_uid : String) (obj_i : Nat) (args : List String) : String :=
  "/" ++ pyJoin "/" ([dataset_uid, toString obj_i] ++ args)

/-- wrappers.py `AbstractWrapper._get_url` (lines 131-132). -/
def get_url (base_url dataset_uid : String) (obj_i : Nat) (args : List String) : String :=
  base_url ++ get_route_str dataset_uid obj_i args

/-- wrappers.py `AbstractWrapper._get_url_simple` (lines 134-135). -/
def get_url_simple (base_url suffix : String) : String :=
  base_url ++ "/" ++ suffix

/-- widget.py `MAX_PORT_TRIES` (line 20). -/
def MAX_PORT_TRIES : Nat := 1000

/-- widget.py `DEFAULT_PORT` (line 21). -/
def DEFAULT_PORT : Nat := 8000

/-- The `while is_port_in_use(use_port) and port_tries < MAX_PORT_TRIES`
loop of `get_base_url_and_port` (widget.py lines 97-101), with
`fuel = MAX_PORT_TRIES - port_tries`; the loop is entered with
`port_tries = 1`.  `occupied` models `is_port_in_use` (a TCP connect to
localhost succeeding).  Returns the final `(use_port, next_port)`. -/
def probe_ports (occupied : Nat → Bool) : Nat → Nat → Nat → Nat × Nat
  | use_port, next_port, 0 => (use_port, next_port)
  | use_port, next_port, fuel+1 =>
    if occupied use_port then probe_ports occupied next_port (next_port+1) fuel
    else (use_port, next_port)

/-- The port-selection half of `get_base_url_and_port`
(widget.py lines 94-103). -/
def resolve_use_port (occupied : Nat → Bool) (port : Option Nat) (next_port : Nat) :
    Nat × Nat :=
  match port with
  | some p => (p, next_port)
  | none => probe_ports occupied next_port (next_port+1) (MAX_PORT_TRIES - 1)

/-- widget.py `get_base_url_and_port` (lines 93-117).  `occupied` models
`is_port_in_use`; `proxy_available` models `importlib.util.find_spec`
finding jupyter-server-proxy.  The only `raise` in the source function is
the proxy-availability check. -/
def get_base_url_and_port (occupied : Nat → Bool) (proxy_available : Bool)
    (port : Option Nat) (next_port : Nat) (proxy : Bool)
    (base_url : Option String) (host_name : Option String) :
    Except String (String × Nat × Nat) :=
  let r := resolve_use_port occupied port next_port
  let use_port := r.1
  let next_port' := r.2
  match base_url with
  | some b => .ok (b, use_port, next_port')
  | none =>
    if proxy then
      if ¬ proxy_available then
        .error "To use the widget through a proxy, jupyter-server-proxy must be installed."
      else
        match host_name with
        | none => .ok ("proxy/" ++ toString use_port, use_port, next_port')
        | some h => .ok (h ++ "/proxy/" ++ toString use_port, use_port, next_port')
    else .ok ("http://localhost:" ++ toString use_port, use_port, next_port')

/-- Whether an `Except` is an error; models a Python call raising. -/
def exceptIsError {ε α : Type} : Except ε α → Bool
  | .error _ => true
  | .ok _ => false

/-- Value of a successful `Except`, with a default for the error case. -/
def exceptGetD {ε α : Type} (e : Except ε α) (d : α) : α :=
  match e with
  | .ok a => a
  | .error _ => d

/-- State of wrappers.py `CsvWrapper` (lines 338-424).  Fields `csvPath`,
`csvUrl`, `dataType`, `fileOptions`, `coordinationValues` model the
source attributes `_csv_path`, `_csv_url`, `_data_type`, `_options`,
`_coordination_values` (the last two are opaque payloads here).
`local_csv_uid` is the `str(uuid4())` minted at construction.  `routes`
holds the server-relative paths of the routes created by
`convert_and_save`; the response handlers (FileResponse of the file
bytes) are outside the embedding. -/
structure CsvWrapper where
  csvPath : Option String
  csvUrl : Option String
  dataType : Option String
  fileOptions : Option String
  coordinationValues : Option String
  is_remote : Bool
  base_dir : Option String
  local_csv_uid : String
  routes : List String
  deriving DecidableEq

/-- wrappers.py `CsvWrapper.__init__` (lines 351-369); the three
`ValueError`s become `Except.error`, checked in source order.  `uid` is
the `uuid4` draw stored as `local_csv_uid`. -/
def CsvWrapper.init (csv_path csv_url data_type options coordination_values : Option String)
    (uid : String) : Except String CsvWrapper :=
  if data_type = none then
    .error "Expected data_type to be provided"
  else if csv_url.isSome ∧ csv_path.isSome then
    .error "Did not expect csv_url to be provided with csv_path"
  else if csv_url = none ∧ csv_path = none then
    .error "Expected csv_url or csv_path to be provided"
  else
    .ok { csvPath := csv_path, csvUrl := csv_url, dataType := data_type,
          fileOptions := options, coordinationValues := coordination_values,
          is_remote := csv_url.isSome, base_dir := none,
          local_csv_uid := uid, routes := [] }

/-- wrappers.py `CsvWrapper.make_csv_routes` (lines 383-403): the
server-relative path of the single file route of a local CSV; remote
wrappers create no routes.  With `base_dir` set the route path mirrors
the source path; otherwise it is the indexed route. -/
def CsvWrapper.make_csv_routes (w : CsvWrapper) (dataset_uid : String) (obj_i : Nat) :
    List String :=
  if w.is_remote then []
  else if w.base_dir.isSome then [file_path_to_url_path (w.csvPath.getD "") true]
  else [get_route_str dataset_uid obj_i [w.local_csv_uid]]

/-- wrappers.py `CsvWrapper.convert_and_save` (lines 371-381) restricted
to its observable state effects: record `base_dir` (done by
`AbstractWrapper.convert_and_save`, for local wrappers only) and append
the created routes. -/
def CsvWrapper.convert_and_save (w : CsvWrapper) (dataset_uid : String) (obj_i : Nat)
    (base_dir : Option String) : CsvWrapper :=
  let w1 := if w.is_remote then w else { w with base_dir := base_dir }
  { w1 with routes := w1.routes ++ w1.make_csv_routes dataset_uid obj_i }

/-- wrappers.py `CsvWrapper.get_csv_url` (lines 418-424). -/
def CsvWrapper.get_csv_url (w : CsvWrapper) (base_url dataset_uid : String) (obj_i : Nat) :
    String :=
  if w.is_remote then w.csvUrl.getD ""
  else if w.base_dir.isSome then
    get_url_simple base_url (file_path_to_url_path (w.csvPath.getD "") false)
  else
    get_url base_url dataset_uid obj_i [w.local_csv_uid]

/-- State of wrappers.py `OmeTiffWrapper` (lines 208-335).  Fields
`imgPath`, `imgUrl`, `offsetsUrl`, `transformationMatrix` model the
source attributes `_img_path`, `_img_url`, `_offsets_url`,
`_transformation_matrix`; matrix entries are opaque to the logic and
modelled as integers.  The two uids are the `str(uuid4())` draws minted
at construction. -/
structure OmeTiffWrapper where
  name : String
  imgPath : Option String
  imgUrl : Option String
  offsetsUrl : Option String
  transformationMatrix : Option (List Int)
  is_remote : Bool
  is_bitmask : Bool
  base_dir : Option String
  local_img_uid : String
  local_offsets_uid : String
  deriving DecidableEq

/-- wrappers.py `OmeTiffWrapper.__init__` (lines 223-238).  The single
`ValueError` is raised only when `img_url` is provided together with
`img_path` or `offsets_path`; the source has no neither-source check. -/
def OmeTiffWrapper.init (img_path offsets_path img_url offsets_url : Option String)
    (name : String) (transformation_matrix : Option (List Int)) (is_bitmask : Bool)
    (uid_img uid_offsets : String) : Except String OmeTiffWrapper :=
  if img_url.isSome ∧ (img_path.isSome ∨ offsets_path.isSome) then
    .error "Did not expect img_path or offsets_path to be provided with img_url"
  else
    .ok { name := name, imgPath := img_path, imgUrl := img_url, offsetsUrl := offsets_url,
          transformationMatrix := transformation_matrix,
          is_remote := img_url.isSome, is_bitmask := is_bitmask, base_dir := none,
          local_img_uid := uid_img, local_offsets_uid := uid_offsets }

/-- The metadata dictionary assembled by `create_image_json`
(wrappers.py lines 302-320); each optional field is `some` exactly when
the source inserts the corresponding key. -/
structure ImageMetadata where
  omeTiffOffsetsUrl : Option String
  transform : Option (List Int)
  isBitmask : Option Bool
  deriving DecidableEq

/-- Number of keys of the metadata dictionary, `len(metadata.keys())`. -/
def ImageMetadata.numKeys (m : ImageMetadata) : Nat :=
  (if m.omeTiffOffsetsUrl.isSome then 1 else 0) +
  (if m.transform.isSome then 1 else 0) +
  (if m.isBitmask.isSome then 1 else 0)

/-- The image dictionary returned by `create_image_json`; the source key
named type, always the string ome-tiff, is the field `imageType`. -/
structure ImageJson where
  name : String
  imageType : String
  url : String
  metadata : Option ImageMetadata
  deriving DecidableEq

/-- wrappers.py `OmeTiffWrapper.create_image_json` (lines 302-320). -/
def OmeTiffWrapper.create_image_json (w : OmeTiffWrapper) (img_url : String)
    (offsets_url : Option String := none) : ImageJson :=
  let metadata : ImageMetadata :=
    { omeTiffOffsetsUrl :=
        match offsets_url with
        | some o => if w.base_dir = none then some o else none
        | none => none,
      transform := w.transformationMatrix,
      isBitmask := some w.is_bitmask }
  { name := w.name, imageType := "ome-tiff", url := img_url,
    metadata := if 0 < metadata.numKeys then some metadata else none }

/-- wrappers.py `OmeTiffWrapper.get_img_url` (lines 322-328). -/
def OmeTiffWrapper.get_img_url (w : OmeTiffWrapper) (base_url dataset_uid : String)
    (obj_i : Nat) : String :=
  if w.is_remote then w.imgUrl.getD ""
  else if w.base_dir.isSome then
    get_url_simple base_url (file_path_to_url_path (w.imgPath.getD "") false)
  else get_url base_url dataset_uid obj_i [w.local_img_uid]

/-- wrappers.py `OmeTiffWrapper.get_offsets_url` (lines 330-335); the
first branch returns `_offsets_url`, which may be absent. -/
def OmeTiffWrapper.get_offsets_url (w : OmeTiffWrapper) (base_url dataset_uid : String)
    (obj_i : Nat) : Option String :=
  if w.offsetsUrl.isSome ∨ w.is_remote then w.offsetsUrl
  else some (get_url base_url dataset_uid obj_i [w.local_offsets_uid])

/-- State of wrappers.py `OmeZarrWrapper` (lines 427-483). -/
structure OmeZarrWrapper where
  imgPath : Option String
  imgUrl : Option String
  is_remote : Bool
  local_dir_uid : String
  deriving DecidableEq

/-- wrappers.py `OmeZarrWrapper.__init__` (lines 437-452). -/
def OmeZarrWrapper.init (img_path img_url : Option String) (uid : String) :
    Except String OmeZarrWrapper :=
  if img_url.isSome ∧ img_path.isSome then
    .error "Did not expect img_path to be provided with img_url"
  else if img_url = none ∧ img_path = none then
    .error "Expected either img_url or img_path to be provided"
  else
    .ok { imgPath := img_path, imgUrl := img_url,
          is_remote := img_path = none, local_dir_uid := uid }

/-- State of wrappers.py `MultivecZarrWrapper` (lines 653-701). -/
structure MultivecZarrWrapper where
  zarrPath : Option String
  zarrUrl : Option String
  is_remote : Bool
  local_dir_uid : String
  deriving DecidableEq

/-- wrappers.py `MultivecZarrWrapper.__init__` (lines 655-670). -/
def MultivecZarrWrapper.init (zarr_path zarr_url : Option String) (uid : String) :
    Except String MultivecZarrWrapper :=
  if zarr_url.isSome ∧ zarr_path.isSome then
    .error "Did not expect zarr_path to be provided with zarr_url"
  else if zarr_url = none ∧ zarr_path = none then
    .error "Expected either zarr_url or zarr_path to be provided"
  else
    .ok { zarrPath := zarr_path, zarrUrl := zarr_url,
          is_remote := zarr_path = none, local_dir_uid := uid }

/-- wrappers.py `AbstractWrapper.get_local_dir_route` (lines 106-129):
the route path of the static directory mount created for a local
wrapper. -/
def get_local_dir_route_path (base_dir : Option String) (dataset_uid : String) (obj_i : Nat)
    (local_dir_path : String) (local_dir_uid : String) : String :=
  match base_dir with
  | none => get_route_str dataset_uid obj_i [local_dir_uid]
  | some _ => file_path_to_url_path local_dir_path true

/-- wrappers.py `AbstractWrapper.get_local_dir_url` (lines 101-104). -/
def get_local_dir_url (is_remote : Bool) (base_dir : Option String)
    (base_url dataset_uid : String) (obj_i : Nat)
    (local_dir_path local_dir_uid : String) : String :=
  if ¬ is_remote ∧ base_dir.isSome then
    get_url_simple base_url (file_path_to_url_path local_dir_path false)
  else get_url base_url dataset_uid obj_i [local_dir_uid]

/-- Value of `AnnDataWrapper._mappings_obsm_names`: absent, the
user-supplied list of names, or — after the in-closure assignment
performed by `make_file_def_creator` — a single plain string. -/
inductive NamesVal where
  | noneV : NamesVal
  | list : List String → NamesVal
  | str : String → NamesVal
  deriving DecidableEq

/-- State of wrappers.py `AnnDataWrapper` (lines 486-633).  The camelCase
fields model the underscore-named source attributes of the same spelling
(`_adata_path`, `_expression_matrix` = obs_feature_matrix_path,
`_cell_set_obs` = obs_set_paths, `_mappings_obsm` = obs_embedding_paths,
`_spatial_centroid_obsm` = obs_locations_path, `_spatial_polygon_obsm` =
obs_segmentations_path, `_gene_alias` = feature_labels_path, and so on);
`requestInit` and `coordinationValues` are opaque payloads. -/
structure AnnDataWrapper where
  adataPath : Option String
  adataUrl : Option String
  is_remote : Bool
  zarr_folder : Option String
  base_dir : Option String
  local_dir_uid : String
  expressionMatrix : Option String
  cellSetObsNames : Option (List String)
  mappingsObsmNames : NamesVal
  geneVarFilter : Option String
  matrixGeneVarFilter : Option String
  cellSetObs : Option (List String)
  spatialCentroidObsm : Option String
  spatialPolygonObsm : Option String
  mappingsObsm : Option (List String)
  mappingsObsmDims : Option (List (List Int))
  requestInit : Option String
  geneAlias : Option String
  convertToDense : Bool
  coordinationValues : Option String
  routes : List String
  deriving DecidableEq

/-- wrappers.py `AnnDataWrapper.__init__` (lines 487-540). -/
def AnnDataWrapper.init (adata_path adata_url obs_feature_matrix_path feature_filter_path
      initial_feature_filter_path : Option String)
    (obs_set_paths obs_set_names : Option (List String))
    (obs_locations_path obs_segmentations_path : Option String)
    (obs_embedding_paths obs_embedding_names : Option (List String))
    (obs_embedding_dims : Option (List (List Int)))
    (request_init feature_labels_path : Option String)
    (convert_to_dense : Bool) (coordination_values : Option String)
    (uid : String) : Except String AnnDataWrapper :=
  if adata_url.isSome ∧ adata_path.isSome then
    .error "Did not expect adata_url to be provided with adata_path"
  else if adata_url = none ∧ adata_path = none then
    .error "Expected either adata_url or adata_path to be provided"
  else
    .ok { adataPath := adata_path, adataUrl := adata_url,
          is_remote := adata_path = none,
          zarr_folder := if adata_path.isSome then some "anndata.zarr" else none,
          base_dir := none, local_dir_uid := uid,
          expressionMatrix := obs_feature_matrix_path,
          cellSetObsNames := obs_set_names,
          mappingsObsmNames :=
            match obs_embedding_names with
            | none => .noneV
            | some l => .list l,
          geneVarFilter := feature_filter_path,
          matrixGeneVarFilter := initial_feature_filter_path,
          cellSetObs := obs_set_paths,
          spatialCentroidObsm := obs_locations_path,
          spatialPolygonObsm := obs_segmentations_path,
          mappingsObsm := obs_embedding_paths,
          mappingsObsmDims := obs_embedding_dims,
          requestInit := request_init,
          geneAlias := feature_labels_path,
          convertToDense := convert_to_dense,
          coordinationValues := coordination_values,
          routes := [] }

/-- wrappers.py `AnnDataWrapper.make_anndata_routes` (lines 554-558),
route paths only. -/
def AnnDataWrapper.make_anndata_routes (w : AnnDataWrapper) (dataset_uid : String)
    (obj_i : Nat) : List String :=
  if w.is_remote then []
  else [get_local_dir_route_path w.base_dir dataset_uid obj_i (w.adataPath.getD "")
          w.local_dir_uid]

/-- wrappers.py `AnnDataWrapper.convert_and_save` (lines 542-552),
restricted to observable state: record `base_dir` (local wrappers only)
and append the created routes; the single file-def creator appended is
modelled by `AnnDataWrapper.get_anndata_zarr`. -/
def AnnDataWrapper.convert_and_save (w : AnnDataWrapper) (dataset_uid : String) (obj_i : Nat)
    (base_dir : Option String) : AnnDataWrapper :=
  let w1 := if w.is_remote then w else { w with base_dir := base_dir }
  { w1 with routes := w1.routes ++ w1.make_anndata_routes dataset_uid obj_i }

/-- wrappers.py `AnnDataWrapper.get_zarr_url` (lines 560-564). -/
def AnnDataWrapper.get_zarr_url (w : AnnDataWrapper) (base_url dataset_uid : String)
    (obj_i : Nat) : String :=
  if w.is_remote then w.adataUrl.getD ""
  else get_local_dir_url w.is_remote w.base_dir base_url dataset_uid obj_i
         (w.adataPath.getD "") w.local_dir_uid

/-- A single-key dictionary holding a path, as inserted for
`obsLocations`, `obsSegmentations` and `featureLabels`. -/
structure PathOptions where
  path : String
  deriving DecidableEq

/-- One entry of the `obsEmbedding` options list. -/
structure ObsEmbeddingEntry where
  path : String
  dims : List Int
  embeddingType : String
  deriving DecidableEq

/-- One entry of the `obsSets` options list. -/
structure ObsSetEntry where
  name : String
  path : String
  deriving DecidableEq

/-- The `obsFeatureMatrix` options entry. -/
structure ObsFeatureMatrixOptions where
  path : String
  featureFilterPath : Option String
  initialFeatureFilterPath : Option String
  deriving DecidableEq

/-- The `options` dictionary assembled by the closure `get_anndata_zarr`
inside `AnnDataWrapper.make_file_def_creator` (wrappers.py lines
566-633); each optional field is `some` exactly when the source inserts
the corresponding key. -/
structure AnnDataOptions where
  obsLocations : Option PathOptions
  obsSegmentations : Option PathOptions
  obsEmbedding : Option (List ObsEmbeddingEntry)
  obsSets : Option (List ObsSetEntry)
  obsFeatureMatrix : Option ObsFeatureMatrixOptions
  featureLabels : Option PathOptions
  deriving DecidableEq

/-- Number of keys of the options dictionary, `len(options.keys())`. -/
def AnnDataOptions.numKeys (o : AnnDataOptions) : Nat :=
  (if o.obsLocations.isSome then 1 else 0) +
  (if o.obsSegmentations.isSome then 1 else 0) +
  (if o.obsEmbedding.isSome then 1 else 0) +
  (if o.obsSets.isSome then 1 else 0) +
  (if o.obsFeatureMatrix.isSome then 1 else 0) +
  (if o.featureLabels.isSome then 1 else 0)

/-- Modelled from the spec: the fileType tag `ft.ANNDATA_ZARR.value` of
the AnnData file definition.  The constants module defining the FileType
enumeration is outside src/; the spec only requires the definition to
carry a fileType, so the concrete string is inessential. -/
def ANNDATA_ZARR : String := "anndata.zarr"

/-- The AnnData file definition dictionary (`obj_file_def`,
wrappers.py lines 622-631). -/
structure AnnDataFileDef where
  fileType : String
  url : String
  options : AnnDataOptions
  requestInit : Option String
  coordinationValues : Option String
  deriving DecidableEq

/-- Python `s.split(sep)[-1]` for the one-character separator slash. -/
def lastPathSegment (s : String) : String :=
  (pySplit s '/').getLastD ""

/-- The `obsEmbedding` block of `get_anndata_zarr` (wrappers.py lines
577-594), including the in-closure assignment
`self._mappings_obsm_names = mapping_key` performed on each iteration of
the no-names branch, which clobbers the attribute with the key string of
each successive mapping.  When the attribute already holds a plain
string (left over from a previous call), Python's `zip` iterates its
characters, so each key is a one-character string.  Returns the entries
together with the final value of `_mappings_obsm_names`. -/
def obsEmbeddingEntries (names : NamesVal) (maps : List String) :
    List ObsEmbeddingEntry × NamesVal :=
  match names with
  | .list ns =>
    ((ns.zip maps).map (fun kv => { path := kv.2, dims := [0, 1], embeddingType := kv.1 }),
     .list ns)
  | .str s =>
    (((s.data.map Char.toString).zip maps).map
       (fun kv => { path := kv.2, dims := [0, 1], embeddingType := kv.1 }),
     .str s)
  | .noneV =>
    (maps.map (fun m => { path := m, dims := [0, 1], embeddingType := lastPathSegment m }),
     match maps.getLast? with
     | none => .noneV
     | some m => .str (lastPathSegment m))

/-- The `obsEmbedding` dims-override loop (wrappers.py lines 595-597):
the entry at each index of the dims list gets its dims overwritten.
When the dims list is longer than the entry list, the indexing of
`obsEmbedding` at that position raises IndexError, which propagates out
of the closure; the loop completes exactly when the dims list is no
longer than the entry list. -/
def applyEmbeddingDims (entries : List ObsEmbeddingEntry)
    (dims : Option (List (List Int))) : Except String (List ObsEmbeddingEntry) :=
  match dims with
  | none => .ok entries
  | some ds =>
    if ds.length ≤ entries.length then
      .ok (entries.mapIdx (fun i e =>
        match ds.get? i with
        | some d => { e with dims := d }
        | none => e))
    else .error "IndexError: list index out of range"

/-- The `obsSets` block of `get_anndata_zarr` (wrappers.py lines
598-608): display names default to the last path segment of each source
column path. -/
def obsSetsEntries (cellSetObs : List String) (cellSetObsNames : Option (List String)) :
    List ObsSetEntry :=
  let names :=
    match cellSetObsNames with
    | some ns => ns
    | none => cellSetObs.map lastPathSegment
  (cellSetObs.zip names).map (fun kv => { name := kv.2, path := kv.1 })

/-- The options-assembly half of the closure `get_anndata_zarr`
(wrappers.py lines 568-620): the options dictionary (or the IndexError
of the dims-override loop) together with the final value of
`_mappings_obsm_names`.  The names assignment happens while walking the
embeddings, before the dims loop, so the new names value stands even
when the dims loop raises. -/
def AnnDataWrapper.build_options (w : AnnDataWrapper) :
    Except String AnnDataOptions × NamesVal :=
  let embedding :=
    match w.mappingsObsm with
    | none => none
    | some maps => some (obsEmbeddingEntries w.mappingsObsmNames maps)
  let names' :=
    match embedding with
    | none => w.mappingsObsmNames
    | some e => e.2
  let embOpt : Except String (Option (List ObsEmbeddingEntry)) :=
    match embedding with
    | none => .ok none
    | some e => (applyEmbeddingDims e.1 w.mappingsObsmDims).map (fun es => some es)
  (match embOpt with
   | .error e => .error e
   | .ok emb =>
     .ok { obsLocations := w.spatialCentroidObsm.map (fun p => { path := p }),
           obsSegmentations := w.spatialPolygonObsm.map (fun p => { path := p }),
           obsEmbedding := emb,
           obsSets := w.cellSetObs.map (fun obs => obsSetsEntries obs w.cellSetObsNames),
           obsFeatureMatrix := w.expressionMatrix.map (fun p =>
             { path := p, featureFilterPath := w.geneVarFilter,
               initialFeatureFilterPath := w.matrixGeneVarFilter }),
           featureLabels :=
             if w.expressionMatrix.isSome then w.geneAlias.map (fun p => { path := p })
             else none },
   names')

/-- The closure `get_anndata_zarr` produced by
`AnnDataWrapper.make_file_def_creator` (wrappers.py lines 566-633), as a
state-passing function: the source closure both reads and writes the
wrapper (the `_mappings_obsm_names` assignment), so the updated wrapper
is returned alongside the result — the optional file definition, or the
IndexError of the dims-override loop (the names assignment precedes the
raise, so the state change stands either way).  `dataset_uid` and
`obj_i` are the values the closure captured at conversion time. -/
def AnnDataWrapper.get_anndata_zarr (w : AnnDataWrapper) (base_url dataset_uid : String)
    (obj_i : Nat) : Except String (Option AnnDataFileDef) × AnnDataWrapper :=
  (match w.build_options.1 with
   | .error e => .error e
   | .ok options =>
     if 0 < options.numKeys then
       .ok (some { fileType := ANNDATA_ZARR,
                   url := w.get_zarr_url base_url dataset_uid obj_i,
                   options := options, requestInit := w.requestInit,
                   coordinationValues := w.coordinationValues })
     else .ok none,
   { w with mappingsObsmNames := w.build_options.2 })

/-- wrappers.py `AbstractWrapper.get_file_defs` (lines 66-80) applied to
an `AnnDataWrapper` after `convert_and_save`: the creator list then holds
exactly the one closure modelled by `get_anndata_zarr` (which captured
`dataset_uid` and `obj_i` at conversion time), results that are not
`None` are collected, and an exception raised inside the creator
propagates to the caller. -/
def AnnDataWrapper.get_file_defs (w : AnnDataWrapper) (base_url dataset_uid : String)
    (obj_i : Nat) : Except String (List AnnDataFileDef) × AnnDataWrapper :=
  ((w.get_anndata_zarr base_url dataset_uid obj_i).1.map (fun r =>
     match r with
     | some fd => [fd]
     | none => []),
   (w.get_anndata_zarr base_url dataset_uid obj_i).2)

/-- widget.py `BackgroundServer` (lines 24-66).  `routes` stands for the
Starlette application's route list; `thread` and `server` are presence
markers for the daemon thread and the uvicorn server handle. -/
structure BackgroundServer where
  routes : List String
  port : Option Nat
  thread : Option Unit
  server : Option Unit
  deriving DecidableEq

/-- widget.py `BackgroundServer.__init__` (lines 26-34). -/
def BackgroundServer.init (routes : List String) : BackgroundServer :=
  { routes := routes, port := none, thread := none, server := none }

/-- widget.py `BackgroundServer.stop` (lines 36-46): a no-op returning
self when no thread exists; otherwise the assertion that the server
handle exists, then the exit flag is set, the thread joined, and both
handles released. -/
def BackgroundServer.stop (s : BackgroundServer) : Except String BackgroundServer :=
  match s.thread with
  | none => .ok s
  | some _ =>
    match s.server with
    | none => .error "assert self.server is not None"
    | some _ => .ok { s with server := none, thread := none }

/-- widget.py `BackgroundServer.start` (lines 48-66): a no-op returning
self when a thread already exists; otherwise record the uvicorn config
port (uvicorn defaults to 8000 when no port is given), create the server
handle and daemon thread, and block until the server reports started. -/
def BackgroundServer.start (s : BackgroundServer) (port : Option Nat) : BackgroundServer :=
  match s.thread with
  | some _ => s
  | none => { s with port := some (port.getD 8000), server := some (), thread := some () }

/-- Modelled from the spec: the per-configuration route registry
(`VitessceConfig.has_server` and `VitessceConfig.register_server` are
called by widget.py `serve_routes` but defined in a module outside
src/): a Route Registry per configuration object tracks, per port,
whether a background server has already been started.  Each entry is one
registered (port, server) pair. -/
structure VitessceConfigServers where
  servers : List (Nat × BackgroundServer)
  deriving DecidableEq

/-- Modelled from the spec: `VitessceConfig.has_server(port)` — whether
a background server is already registered for the port. -/
def VitessceConfigServers.has_server (c : VitessceConfigServers) (port : Nat) : Bool :=
  c.servers.any (fun e => e.1 = port)

/-- Modelled from the spec: `VitessceConfig.register_server(port, server)`
— record the server under the port. -/
def VitessceConfigServers.register_server (c : VitessceConfigServers) (port : Nat)
    (s : BackgroundServer) : VitessceConfigServers :=
  { servers := c.servers ++ [(port, s)] }

/-- Number of servers a configuration has registered for a port. -/
def VitessceConfigServers.portCount (c : VitessceConfigServers) (port : Nat) : Nat :=
  (c.servers.filter (fun e => e.1 = port)).length

/-- widget.py `VitessceDataServer.register` (lines 78-80): configuration
objects are identified by id here; an id is appended only when not
already present. -/
def data_server_register (served_configs : List Nat) (config : Nat) : List Nat :=
  if served_configs.contains config then served_configs else served_configs ++ [config]

/-- widget.py `serve_routes` (lines 120-125).  The state is the
configuration's server registry together with the process-wide
`data_server.served_configs` list of registered configuration ids.  The
source registers the freshly created `BackgroundServer` and then starts
it; by aliasing the registered object is the started one. -/
def serve_routes (c : VitessceConfigServers) (served_configs : List Nat) (config_id : Nat)
    (routes : List String) (use_port : Nat) : VitessceConfigServers × List Nat :=
  if ¬ c.has_server use_port ∧ 0 < routes.length then
    let server := (BackgroundServer.init routes).start (some use_port)
    (c.register_server use_port server, data_server_register served_configs config_id)
  else (c, served_configs)

/-- The single-quote character, for building the Python error
f-strings. -/
def squoteStr : String := (Char.ofNat 39).toString

/-- Python `str` of a list of strings, as interpolated into the error
messages: bracketed, comma-separated, elements single-quoted. -/
def pyListRepr (l : List String) : String :=
  "[" ++ pyJoin ", " (l.map (fun s => squoteStr ++ s ++ squoteStr)) ++ "]"

/-- First value bound to a key; models the CPython dict lookup
`obj[coordination_scope]` over the insertion-ordered pair list. -/
def lookupScope {α : Type} (obj : List (String × α)) (s : String) : Option α :=
  (obj.find? (fun kv => kv.1 = s)).map (fun kv => kv.2)

/-- The unknown-scope error message of `_get_coordination_value`
(widget.py lines 379-380). -/
def msgScopeNotFound (coordination_type coordination_scope : String)
    (obj_scopes : List String) : String :=
  "The specified coordination scope " ++ squoteStr ++ coordination_scope ++ squoteStr ++
  " could not be found for the coordination type " ++ squoteStr ++ coordination_type ++
  squoteStr ++ ". Known coordination scopes are " ++ pyListRepr obj_scopes

/-- The ambiguous-scope error message of `_get_coordination_value`
(widget.py lines 386-387). -/
def msgMultipleScopes (coordination_type : String) (obj_scopes : List String) : String :=
  "The coordination scope could not be automatically determined because multiple coordination scopes exist for the coordination type " ++
  squoteStr ++ coordination_type ++ squoteStr ++ ". Please specify one of " ++
  pyListRepr obj_scopes ++ " using the scope parameter."

/-- The no-scopes error message of `_get_coordination_value`
(widget.py lines 389-390). -/
def msgNoScopes (coordination_type : String) : String :=
  "No coordination scopes were found for the coordination type " ++ squoteStr ++
  coordination_type ++ squoteStr ++ "."

/-- widget.py `VitessceWidget._get_coordination_value` (lines 372-393).
`obj` is the coordination-space entry for `coordination_type`: the
insertion-ordered (scope, value) pairs of the dict, keys unique. -/
def get_coordination_value {α : Type} (coordination_type : String)
    (obj : List (String × α)) (coordination_scope : Option String) : Except String α :=
  match coordination_scope with
  | some s =>
    match lookupScope obj s with
    | some v => .ok v
    | none => .error (msgScopeNotFound coordination_type s (obj.map (fun kv => kv.1)))
  | none =>
    if (obj.map (fun kv => kv.1)).length = 1 then
      match obj.head? with
      | some kv => .ok kv.2
      | none => .error (msgNoScopes coordination_type)
    else if 1 < (obj.map (fun kv => kv.1)).length then
      .error (msgMultipleScopes coordination_type (obj.map (fun kv => kv.1)))
    else .error (msgNoScopes coordination_type)

/-- A concrete remote OmeTiffWrapper with every metadata input at its
default: no transformation matrix, bitmask flag false, no offsets. -/
def c6Wrapper : OmeTiffWrapper :=
  { name := "image", imgPath := none, imgUrl := some "http://example.com/image.ome.tif",
    offsetsUrl := none, transformationMatrix := none, is_remote := true,
    is_bitmask := false, base_dir := none, local_img_uid := "u1",
    local_offsets_uid := "u2" }

/-- The AnnDataWrapper of a local store adata.zarr with one embedding
path obsm/X_umap, no embedding names, and nothing else set; this is the
record `AnnDataWrapper.__init__` produces for those arguments (proved
where the definition is used). -/
def c5Wrapper0 : AnnDataWrapper :=
  { adataPath := some "adata.zarr", adataUrl := none, is_remote := false,
    zarr_folder := some "anndata.zarr", base_dir := none, local_dir_uid := "u1",
    expressionMatrix := none, cellSetObsNames := none, mappingsObsmNames := .noneV,
    geneVarFilter := none, matrixGeneVarFilter := none, cellSetObs := none,
    spatialCentroidObsm := none, spatialPolygonObsm := none,
    mappingsObsm := some ["obsm/X_umap"], mappingsObsmDims := none,
    requestInit := none, geneAlias := none, convertToDense := true,
    coordinationValues := none, routes := [] }

/-- The AnnDataWrapper of a local store adata.zarr with one embedding
path obsm/X_umap but two obs_embedding_dims entries — a combination the
constructor accepts unchecked; this is the record
`AnnDataWrapper.__init__` produces for those arguments (proved where the
definition is used). -/
def c10Wrapper0 : AnnDataWrapper :=
  { adataPath := some "adata.zarr", adataUrl := none, is_remote := false,
    zarr_folder := some "anndata.zarr", base_dir := none, local_dir_uid := "u1",
    expressionMatrix := none, cellSetObsNames := none, mappingsObsmNames := .noneV,
    geneVarFilter := none, matrixGeneVarFilter := none, cellSetObs := none,
    spatialCentroidObsm := none, spatialPolygonObsm := none,
    mappingsObsm := some ["obsm/X_umap"],
    mappingsObsmDims := some [[0, 1], [2, 3]],
    requestInit := none, geneAlias := none, convertToDense := true,
    coordinationValues := none, routes := [] }

/-! Helper lemmas. -/

/-- Invariants of the port-probing loop: the returned `next_port` is one
past the returned `use_port`; the returned port lies in the probed
window; every port below it in the window was occupied; and the port is
either free or the last one the fuel allowed. -/
theorem probe_ports_spec (occupied : Nat → Bool) (fuel : Nat) :
    ∀ start : Nat,
      (probe_ports occupied start (start+1) fuel).2 =
        (probe_ports occupied start (start+1) fuel).1 + 1 ∧
      start ≤ (probe_ports occupied start (start+1) fuel).1 ∧
      (probe_ports occupied start (start+1) fuel).1 ≤ start + fuel ∧
      (∀ q, start ≤ q → q < (probe_ports occupied start (start+1) fuel).1 →
        occupied q = true) ∧
      (occupied (probe_ports occupied start (start+1) fuel).1 = false ∨
        (probe_ports occupied start (start+1) fuel).1 = start + fuel) := by
  induction fuel with
  | zero =>
    intro start
    refine ⟨rfl, Nat.le_refl _, Nat.le_refl _, ?_, Or.inr rfl⟩
    intro q hq1 hq2
    simp only [probe_ports] at hq2
    omega
  | succ n ih =>
    intro start
    by_cases h : occupied start = true
    · have hrw : probe_ports occupied start (start+1) (n+1) =
          probe_ports occupied (start+1) (start+1+1) n := by
        simp [probe_ports, h]
      rw [hrw]
      obtain ⟨ih1, ih2, ih3, ih4, ih5⟩ := ih (start+1)
      refine ⟨ih1, by omega, by omega, ?_, ?_⟩
      · intro q hq1 hq2
        rcases Nat.eq_or_lt_of_le hq1 with hq | hq
        · rwa [hq] at h
        · exact ih4 q hq hq2
      · rcases ih5 with h5 | h5
        · exact Or.inl h5
        · exact Or.inr (by omega)
    · have hrw : probe_ports occupied start (start+1) (n+1) = (start, start+1) := by
        simp [probe_ports, h]
      rw [hrw]
      refine ⟨rfl, Nat.le_refl _, by omega, ?_, Or.inl (by simpa using h)⟩
      intro q hq1 hq2
      omega

/-- Claim C1 (amended): with no explicit port, resolution probes from
the hint upward and returns the first port whose TCP probe fails, when
such a port exists among the 1000 ports of the probe window; exhausting
the budget is NOT a raised failure — the loop then stops and the last
probed port, hint+999, is returned even though it is occupied (any
failure surfaces later, at bind time).  In the direct (non-proxy,
no-explicit-base-url) configuration the call always succeeds and the
base url is localhost with the chosen port. -/
theorem c1_port_resolution (occupied : Nat → Bool) (hint : Nat) :
    get_base_url_and_port occupied true none hint false none none =
      .ok ("http://localhost:" ++ toString (resolve_use_port occupied none hint).1,
           (resolve_use_port occupied none hint).1,
           (resolve_use_port occupied none hint).2) ∧
    (resolve_use_port occupied none hint).2 = (resolve_use_port occupied none hint).1 + 1 ∧
    hint ≤ (resolve_use_port occupied none hint).1 ∧
    (resolve_use_port occupied none hint).1 ≤ hint + (MAX_PORT_TRIES - 1) ∧
    (∀ q, hint ≤ q → q < (resolve_use_port occupied none hint).1 → occupied q = true) ∧
    (occupied (resolve_use_port occupied none hint).1 = false ∨
      (resolve_use_port occupied none hint).1 = hint + (MAX_PORT_TRIES - 1)) ∧
    ((∃ p, hint ≤ p ∧ p ≤ hint + (MAX_PORT_TRIES - 1) ∧ occupied p = false) →
      occupied (resolve_use_port occupied none hint).1 = false) := by
  have hs := probe_ports_spec occupied (MAX_PORT_TRIES - 1) hint
  obtain ⟨h1, h2, h3, h4, h5⟩ := hs
  have hres : resolve_use_port occupied none hint =
      probe_ports occupied hint (hint+1) (MAX_PORT_TRIES - 1) := rfl
  rw [hres]
  refine ⟨rfl, h1, h2, h3, h4, h5, ?_⟩
  rintro ⟨p, hp1, hp2, hp3⟩
  rcases h5 with h5 | h5
  · exact h5
  · by_cases hpu : p < (probe_ports occupied hint (hint+1) (MAX_PORT_TRIES - 1)).1
    · have := h4 p hp1 hpu
      rw [this] at hp3
      cases hp3
    · have : p = (probe_ports occupied hint (hint+1) (MAX_PORT_TRIES - 1)).1 := by omega
      rwa [← this]

/-- Claim C1 (counterexample): with every port occupied the probe budget
of 1000 tries is exhausted, yet resolution does not raise: it returns
port 8999 = 8000 + 999 (an occupied port) and the corresponding base
url, contradicting the claimed hard failure. -/
theorem c1_counterexample :
    get_base_url_and_port (fun _ => true) true none 8000 false none none =
      .ok ("http://localhost:8999", 8999, 9000) ∧
    (fun _ : Nat => true) 8999 = true := by
  exact ⟨rfl, rfl⟩

/-- A string that starts with a slash splits as a slash and a tail. -/
theorem pyStartsWith_slash_decomp (s : String) (h : pyStartsWith s "/" = true) :
    ∃ t, s = "/" ++ t := by
  unfold pyStartsWith at h
  cases hd : s.data with
  | nil =>
    rw [hd] at h
    exact absurd h (by decide)
  | cons c rest =>
    rw [hd] at h
    have h' : ('/' == c && List.isPrefixOf ([] : List Char) rest) = true := h
    have hc : c = '/' := (eq_of_beq ((Bool.and_eq_true _ _).mp h').1).symm
    refine ⟨String.mk rest, ?_⟩
    apply String.ext
    rw [String.data_append, hd, hc]
    rfl

/-- The url path produced with a leading slash requested really does
begin with a slash. -/
theorem file_path_to_url_path_slash (p : String) :
    ∃ t, file_path_to_url_path p true = "/" ++ t := by
  by_cases h : pyStartsWith (purePosixPathStr p) "/" = true
  · obtain ⟨t, ht⟩ := pyStartsWith_slash_decomp _ h
    refine ⟨t, ?_⟩
    have hu : file_path_to_url_path p true = purePosixPathStr p := by
      simp [file_path_to_url_path, h]
    rw [hu, ht]
  · refine ⟨purePosixPathStr p, ?_⟩
    simp [file_path_to_url_path, h]

/-- Claim C2 (counterexample): a CsvWrapper constructed with csv_path
/data/cells.csv whose base_dir is set to /data during convert_and_save
serves the url http://localhost:8000//data/cells.csv — the source uses
the csv_path verbatim and performs no relativization against base_dir —
not the http://localhost:8000/cells.csv the claim states. -/
theorem c2_counterexample :
    exceptGetD
      ((CsvWrapper.init (some "/data/cells.csv") none (some "obs") none none "u1").map
        (fun w => (w.convert_and_save "A" 0 (some "/data")).get_csv_url
          "http://localhost:8000" "A" 0)) "" =
      "http://localhost:8000//data/cells.csv" ∧
    exceptIsError
      (CsvWrapper.init (some "/data/cells.csv") none (some "obs") none none "u1") = false ∧
    "http://localhost:8000//data/cells.csv" ≠ "http://localhost:8000/cells.csv" := by
  refine ⟨rfl, rfl, ?_⟩
  decide

/-- Claim C2 (amended): under the mirrored routing policy (base_dir set,
local file), the served url is the base url, a slash, and the
POSIX-normalized csv_path taken verbatim — the source performs no
relativization, so the path must already be given relative to base_dir;
the mirrored route path itself always begins with a slash; and the
concrete scenario returns http://localhost:8000/cells.csv when the
wrapper is constructed with the relative csv_path cells.csv. -/
theorem c2_mirrored_url (w : CsvWrapper) (p : String)
    (h1 : w.is_remote = false) (h2 : w.base_dir.isSome = true)
    (h3 : w.csvPath = some p) (base_url dataset_uid : String) (obj_i : Nat) :
    w.get_csv_url base_url dataset_uid obj_i = base_url ++ "/" ++ purePosixPathStr p ∧
    (∃ t, file_path_to_url_path p true = "/" ++ t) ∧
    exceptGetD
      ((CsvWrapper.init (some "cells.csv") none (some "obs") none none "u1").map
        (fun w0 => (w0.convert_and_save "A" 0 (some "/data")).get_csv_url
          "http://localhost:8000" "A" 0)) "" = "http://localhost:8000/cells.csv" := by
  refine ⟨?_, file_path_to_url_path_slash p, rfl⟩
  simp [CsvWrapper.get_csv_url, h1, h2, h3, get_url_simple, file_path_to_url_path]

/-- Witness for c2_mirrored_url at a concrete wrapper. -/
theorem c2_mirrored_url_witness :
    ({ csvPath := some "cells.csv", csvUrl := none, dataType := some "obs",
       fileOptions := none, coordinationValues := none, is_remote := false,
       base_dir := some "/data", local_csv_uid := "u1", routes := [] } :
        CsvWrapper).get_csv_url "http://localhost:8000" "A" 0 =
        "http://localhost:8000" ++ "/" ++ purePosixPathStr "cells.csv" ∧
    (∃ t, file_path_to_url_path "cells.csv" true = "/" ++ t) ∧
    exceptGetD
      ((CsvWrapper.init (some "cells.csv") none (some "obs") none none "u1").map
        (fun w0 => (w0.convert_and_save "A" 0 (some "/data")).get_csv_url
          "http://localhost:8000" "A" 0)) "" = "http://localhost:8000/cells.csv" :=
  c2_mirrored_url
    { csvPath := some "cells.csv", csvUrl := none, dataType := some "obs",
      fileOptions := none, coordinationValues := none, is_remote := false,
      base_dir := some "/data", local_csv_uid := "u1", routes := [] }
    "cells.csv" rfl rfl rfl "http://localhost:8000" "A" 0

/-- Claim C3 (counterexample): OmeTiffWrapper constructed with neither a
local path nor a remote url raises nothing — the source has no
neither-source check — so a wrapper instance with neither source set
exists, contradicting the claim. -/
theorem c3_counterexample :
    OmeTiffWrapper.init none none none none "" none false "u1" "u2" =
      .ok { name := "", imgPath := none, imgUrl := none, offsetsUrl := none,
            transformationMatrix := none, is_remote := false, is_bitmask := false,
            base_dir := none, local_img_uid := "u1", local_offsets_uid := "u2" } := by
  rfl

/-- Claim C3 (amended): every wrapper variant raises ValueError when
constructed with both a local path and a remote url; CSV, OME-Zarr,
AnnData and Multivec-Zarr also raise when constructed with neither; but
OME-TIFF does not validate the neither case and constructs
successfully. -/
theorem c3_constructor_validation
    (p u : String) (dt fopts cv : Option String) (uid uid2 : String)
    (nm : String) (tm : Option (List Int)) (bm : Bool) (op ou : Option String)
    (o1 o2 o3 : Option String) (l1 l2 : Option (List String)) (o4 o5 : Option String)
    (l3 l4 : Option (List String)) (dims : Option (List (List Int)))
    (ri fl : Option String) (cd : Bool) (cv2 : Option String) :
    exceptIsError (CsvWrapper.init (some p) (some u) dt fopts cv uid) = true ∧
    exceptIsError (CsvWrapper.init none none dt fopts cv uid) = true ∧
    exceptIsError (OmeTiffWrapper.init (some p) op (some u) ou nm tm bm uid uid2) = true ∧
    exceptIsError (OmeTiffWrapper.init none op none ou nm tm bm uid uid2) = false ∧
    exceptIsError (OmeZarrWrapper.init (some p) (some u) uid) = true ∧
    exceptIsError (OmeZarrWrapper.init none none uid) = true ∧
    exceptIsError (MultivecZarrWrapper.init (some p) (some u) uid) = true ∧
    exceptIsError (MultivecZarrWrapper.init none none uid) = true ∧
    exceptIsError (AnnDataWrapper.init (some p) (some u) o1 o2 o3 l1 l2 o4 o5 l3 l4
      dims ri fl cd cv2 uid) = true ∧
    exceptIsError (AnnDataWrapper.init none none o1 o2 o3 l1 l2 o4 o5 l3 l4
      dims ri fl cd cv2 uid) = true := by
  refine ⟨?_, ?_, ?_, ?_, ?_, ?_, ?_, ?_, ?_, ?_⟩
  · cases dt <;> simp [CsvWrapper.init, exceptIsError]
  · cases dt <;> simp [CsvWrapper.init, exceptIsError]
  · simp [OmeTiffWrapper.init, exceptIsError]
  · simp [OmeTiffWrapper.init, exceptIsError]
  · simp [OmeZarrWrapper.init, exceptIsError]
  · simp [OmeZarrWrapper.init, exceptIsError]
  · simp [MultivecZarrWrapper.init, exceptIsError]
  · simp [MultivecZarrWrapper.init, exceptIsError]
  · simp [AnnDataWrapper.init, exceptIsError]
  · simp [AnnDataWrapper.init, exceptIsError]

/-- Registering a server for a port adds exactly one entry for that
port. -/
theorem portCount_register (c : VitessceConfigServers) (p : Nat) (s : BackgroundServer) :
    (c.register_server p s).portCount p = c.portCount p + 1 := by
  simp [VitessceConfigServers.register_server, VitessceConfigServers.portCount,
    List.filter_append]

/-- A freshly registered port is seen by `has_server`. -/
theorem has_server_register (c : VitessceConfigServers) (p : Nat) (s : BackgroundServer) :
    (c.register_server p s).has_server p = true := by
  simp [VitessceConfigServers.register_server, VitessceConfigServers.has_server]

/-- With no registered server for the port, the port count is zero. -/
theorem portCount_eq_zero (c : VitessceConfigServers) (p : Nat)
    (h : c.has_server p = false) : c.portCount p = 0 := by
  simp only [VitessceConfigServers.has_server, List.any_eq_false] at h
  simp only [VitessceConfigServers.portCount, List.length_eq_zero, List.filter_eq_nil_iff]
  exact h

/-- The process-wide registry append keeps the id list duplicate-free. -/
theorem data_server_register_nodup (served : List Nat) (cid : Nat) (h : served.Nodup) :
    (data_server_register served cid).Nodup := by
  by_cases hc : cid ∈ served
  · simp [data_server_register, hc, h]
  · have hb : served.contains cid = false := by simpa using hc
    unfold data_server_register
    rw [hb]
    simp only [Bool.false_eq_true, if_false]
    rw [List.nodup_append]
    refine ⟨h, List.nodup_singleton _, ?_⟩
    intro a ha hmem
    rw [List.mem_singleton] at hmem
    subst hmem
    exact hc ha

/-- Claim C4: serve_routes registers a new background server for the
port only when the configuration has none for that exact port and the
route list is non-empty; a repeat call for the same configuration and
port leaves at most one server registered for the port; and the
process-wide data-server registry stays duplicate-free. -/
theorem c4_serve_routes_registration (c : VitessceConfigServers) (served : List Nat)
    (config_id : Nat) (routes routes2 : List String) (port : Nat) :
    ((c.has_server port = true ∨ routes = []) →
      serve_routes c served config_id routes port = (c, served)) ∧
    ((serve_routes (serve_routes c served config_id routes port).1
        (serve_routes c served config_id routes port).2 config_id routes2 port).1.portCount
          port ≤ max (c.portCount port) 1) ∧
    (served.Nodup → (serve_routes c served config_id routes port).2.Nodup) := by
  refine ⟨?_, ?_, ?_⟩
  · rintro (h | h)
    · simp [serve_routes, h]
    · simp [serve_routes, h]
  · by_cases hs : c.has_server port = true
    · have e1 : serve_routes c served config_id routes port = (c, served) := by
        simp [serve_routes, hs]
      have e2 : serve_routes c served config_id routes2 port = (c, served) := by
        simp [serve_routes, hs]
      rw [e1, e2]
      exact le_max_left _ _
    · have hz : c.portCount port = 0 :=
        portCount_eq_zero c port (by simpa using hs)
      by_cases hr : 0 < routes.length
      · have e1 : serve_routes c served config_id routes port =
            (c.register_server port ((BackgroundServer.init routes).start (some port)),
             data_server_register served config_id) := by
          simp [serve_routes, hs, hr]
        rw [e1]
        have e2 : serve_routes
            (c.register_server port ((BackgroundServer.init routes).start (some port)))
            (data_server_register served config_id) config_id routes2 port =
            (c.register_server port ((BackgroundServer.init routes).start (some port)),
             data_server_register served config_id) := by
          simp [serve_routes, has_server_register]
        rw [e2, portCount_register, hz]
        simp
      · have e1 : serve_routes c served config_id routes port = (c, served) := by
          simp [serve_routes, hr]
        rw [e1]
        by_cases hr2 : 0 < routes2.length
        · have e2 : serve_routes c served config_id routes2 port =
              (c.register_server port ((BackgroundServer.init routes2).start (some port)),
               data_server_register served config_id) := by
            simp [serve_routes, hs, hr2]
          rw [e2, portCount_register, hz]
          simp
        · have e2 : serve_routes c served config_id routes2 port = (c, served) := by
            simp [serve_routes, hr2]
          rw [e2]
          exact le_max_left _ _
  · intro hnd
    by_cases hcond : ¬ c.has_server port = true ∧ 0 < routes.length
    · have e1 : serve_routes c served config_id routes port =
          (c.register_server port ((BackgroundServer.init routes).start (some port)),
           data_server_register served config_id) := by
        simp [serve_routes, hcond.1, hcond.2]
      rw [e1]
      exact data_server_register_nodup served config_id hnd
    · have e1 : serve_routes c served config_id routes port = (c, served) := by
        unfold serve_routes
        rw [if_neg hcond]
      rw [e1]
      exact hnd

/-- Claim C8: start on an already-started background server is a no-op
returning the instance unchanged; stop on a never-started instance (no
thread) is a no-op returning the instance unchanged; stop on a started
instance releases both the server handle and the thread. -/
theorem c8_background_server_lifecycle (s : BackgroundServer) (port : Option Nat) :
    (s.thread.isSome = true → s.start port = s) ∧
    (s.thread = none → s.stop = .ok s) ∧
    (s.thread.isSome = true → s.server.isSome = true →
      s.stop = .ok { s with server := none, thread := none }) := by
  refine ⟨?_, ?_, ?_⟩
  · intro h
    cases ht : s.thread with
    | none => rw [ht] at h; simp at h
    | some t => simp [BackgroundServer.start, ht]
  · intro h
    simp [BackgroundServer.stop, h]
  · intro h1 h2
    cases ht : s.thread with
    | none => rw [ht] at h1; simp at h1
    | some t =>
      cases hs : s.server with
      | none => rw [hs] at h2; simp at h2
      | some sv => simp [BackgroundServer.stop, ht, hs]

/-- Claim C6 (counterexample): with the transformation matrix absent and
the bitmask flag at its default false, create_image_json still attaches
a metadata object — the source writes the isBitmask key
unconditionally — contradicting both the claimed conditionality of the
isBitmask entry and the claimed absence of metadata at all-default
inputs. -/
theorem c6_counterexample :
    OmeTiffWrapper.init none none (some "http://example.com/image.ome.tif") none "image"
        none false "u1" "u2" = .ok c6Wrapper ∧
    c6Wrapper.transformationMatrix = none ∧
    c6Wrapper.is_bitmask = false ∧
    (c6Wrapper.create_image_json "http://example.com/image.ome.tif" none).metadata =
      some { omeTiffOffsetsUrl := none, transform := none, isBitmask := some false } := by
  exact ⟨rfl, rfl, rfl, rfl⟩

/-- Claim C6 (amended): the transform entry appears in the image
metadata exactly when a transformation matrix was supplied, passed
through verbatim, and the offsets entry exactly when an offsets url is
given outside base_dir mode; but the isBitmask entry is always written
with the flag's verbatim value (its default false included), so a
metadata object is attached to every image definition — the
only-attach-if-non-empty guard in the source is vacuous. -/
theorem c6_image_metadata (w : OmeTiffWrapper) (img_url : String)
    (offsets_url : Option String) :
    (w.create_image_json img_url offsets_url).metadata =
      some { omeTiffOffsetsUrl :=
               match offsets_url with
               | some o => if w.base_dir = none then some o else none
               | none => none,
             transform := w.transformationMatrix,
             isBitmask := some w.is_bitmask } ∧
    (w.create_image_json img_url offsets_url).url = img_url ∧
    (w.create_image_json img_url offsets_url).name = w.name := by
  have hpos : ∀ m : ImageMetadata, m.isBitmask.isSome = true →
      (if 0 < m.numKeys then some m else none) = some m := by
    intro m hm
    rw [if_pos]
    simp only [ImageMetadata.numKeys, hm, if_true]
    omega
  refine ⟨?_, ?_, ?_⟩
  · simp only [OmeTiffWrapper.create_image_json]
    exact hpos _ rfl
  · unfold OmeTiffWrapper.create_image_json
    rfl
  · unfold OmeTiffWrapper.create_image_json
    rfl

/-- Claim C5 (code bug): get_file_defs is not read-only and not
repeatable.  For a wrapper with one embedding path and no embedding
names, the first call emits embeddingType X_umap but clobbers the
wrapper's `_mappings_obsm_names` attribute with the plain string X_umap
(the in-closure assignment in the source); the second call then zips
that string's characters with the path list and emits embeddingType X.
The two calls disagree and the wrapper state changes. -/
theorem c5_get_file_defs_mutates :
    AnnDataWrapper.init (some "adata.zarr") none none none none none none none none
        (some ["obsm/X_umap"]) none none none none true none "u1" = .ok c5Wrapper0 ∧
    ((exceptGetD ((c5Wrapper0.convert_and_save "A" 0 none).get_file_defs
        "http://localhost:8000" "A" 0).1 []).map
      (fun fd => (fd.options.obsEmbedding.getD []).map (fun e => e.embeddingType)) =
      [["X_umap"]]) ∧
    ((exceptGetD (((c5Wrapper0.convert_and_save "A" 0 none).get_file_defs
          "http://localhost:8000" "A" 0).2.get_file_defs
        "http://localhost:8000" "A" 0).1 []).map
      (fun fd => (fd.options.obsEmbedding.getD []).map (fun e => e.embeddingType)) =
      [["X"]]) ∧
    (exceptIsError ((c5Wrapper0.convert_and_save "A" 0 none).get_file_defs
        "http://localhost:8000" "A" 0).1 = false) ∧
    (exceptIsError (((c5Wrapper0.convert_and_save "A" 0 none).get_file_defs
          "http://localhost:8000" "A" 0).2.get_file_defs
        "http://localhost:8000" "A" 0).1 = false) ∧
    (exceptGetD ((c5Wrapper0.convert_and_save "A" 0 none).get_file_defs
        "http://localhost:8000" "A" 0).1 [] ≠
      exceptGetD (((c5Wrapper0.convert_and_save "A" 0 none).get_file_defs
            "http://localhost:8000" "A" 0).2.get_file_defs
          "http://localhost:8000" "A" 0).1 []) ∧
    (((c5Wrapper0.convert_and_save "A" 0 none).get_file_defs
        "http://localhost:8000" "A" 0).2 ≠ c5Wrapper0.convert_and_save "A" 0 none) := by
  refine ⟨rfl, rfl, rfl, rfl, rfl, ?_, ?_⟩ <;> decide

/-- With no embeddings configured, options assembly succeeds and the
obsEmbedding key stays absent. -/
theorem build_options_mappings_none (w : AnnDataWrapper) (h : w.mappingsObsm = none) :
    w.build_options.1 = .ok
      { obsLocations := w.spatialCentroidObsm.map (fun p => { path := p }),
        obsSegmentations := w.spatialPolygonObsm.map (fun p => { path := p }),
        obsEmbedding := none,
        obsSets := w.cellSetObs.map (fun obs => obsSetsEntries obs w.cellSetObsNames),
        obsFeatureMatrix := w.expressionMatrix.map (fun p =>
          { path := p, featureFilterPath := w.geneVarFilter,
            initialFeatureFilterPath := w.matrixGeneVarFilter }),
        featureLabels :=
          if w.expressionMatrix.isSome then w.geneAlias.map (fun p => { path := p })
          else none } := by
  unfold AnnDataWrapper.build_options
  rw [h]

/-- With embeddings configured, options assembly succeeds or fails with
the dims-override loop, and on success carries the overridden entries
under the obsEmbedding key. -/
theorem build_options_mappings_some (w : AnnDataWrapper) (maps : List String)
    (h : w.mappingsObsm = some maps) :
    w.build_options.1 =
      (applyEmbeddingDims (obsEmbeddingEntries w.mappingsObsmNames maps).1
          w.mappingsObsmDims).map (fun es =>
        { obsLocations := w.spatialCentroidObsm.map (fun p => { path := p }),
          obsSegmentations := w.spatialPolygonObsm.map (fun p => { path := p }),
          obsEmbedding := some es,
          obsSets := w.cellSetObs.map (fun obs => obsSetsEntries obs w.cellSetObsNames),
          obsFeatureMatrix := w.expressionMatrix.map (fun p =>
            { path := p, featureFilterPath := w.geneVarFilter,
              initialFeatureFilterPath := w.matrixGeneVarFilter }),
          featureLabels :=
            if w.expressionMatrix.isSome then w.geneAlias.map (fun p => { path := p })
            else none }) := by
  cases hd : applyEmbeddingDims (obsEmbeddingEntries w.mappingsObsmNames maps).1
      w.mappingsObsmDims with
  | error e =>
    unfold AnnDataWrapper.build_options
    rw [h]
    simp only [hd, Except.map]
  | ok es =>
    unfold AnnDataWrapper.build_options
    rw [h]
    simp only [hd, Except.map]

/-- The options assembly raises exactly when embeddings are configured
together with a dims list longer than the assembled entry list. -/
theorem build_options_error_iff (w : AnnDataWrapper) :
    exceptIsError w.build_options.1 = true ↔
      ∃ maps ds, w.mappingsObsm = some maps ∧ w.mappingsObsmDims = some ds ∧
        (obsEmbeddingEntries w.mappingsObsmNames maps).1.length < ds.length := by
  cases h3 : w.mappingsObsm with
  | none =>
    rw [build_options_mappings_none w h3]
    simp [exceptIsError]
  | some maps =>
    rw [build_options_mappings_some w maps h3]
    cases h6 : w.mappingsObsmDims with
    | none => simp [applyEmbeddingDims, Except.map, exceptIsError]
    | some ds =>
      by_cases hlen : ds.length ≤ (obsEmbeddingEntries w.mappingsObsmNames maps).1.length
      · simp only [applyEmbeddingDims, hlen, if_pos, Except.map, exceptIsError]
        constructor
        · intro hfalse
          cases hfalse
        · rintro ⟨maps2, ds2, hm2, hd2, hlt⟩
          rw [← Option.some.inj hm2, ← Option.some.inj hd2] at hlt
          exact absurd hlt (by omega)
      · simp only [applyEmbeddingDims, hlen, if_neg, if_false, Except.map, exceptIsError]
        constructor
        · intro _
          exact ⟨maps, ds, rfl, rfl, by omega⟩
        · intro _
          trivial

/-- An options dictionary successfully assembled is non-empty exactly
when at least one of the five optional data axes is configured. -/
theorem build_options_numKeys_pos (w : AnnDataWrapper) (options : AnnDataOptions)
    (h : w.build_options.1 = .ok options) :
    (0 < options.numKeys) ↔
      ¬ (w.spatialCentroidObsm = none ∧ w.spatialPolygonObsm = none ∧
         w.mappingsObsm = none ∧ w.cellSetObs = none ∧ w.expressionMatrix = none) := by
  cases h3 : w.mappingsObsm with
  | none =>
    rw [build_options_mappings_none w h3] at h
    have hrec := Except.ok.inj h
    subst hrec
    cases h1 : w.spatialCentroidObsm <;> cases h2 : w.spatialPolygonObsm <;>
      cases h4 : w.cellSetObs <;> cases h5 : w.expressionMatrix <;>
        simp [AnnDataOptions.numKeys, h1, h2, h3, h4, h5]
  | some maps =>
    rw [build_options_mappings_some w maps h3] at h
    cases hd : applyEmbeddingDims (obsEmbeddingEntries w.mappingsObsmNames maps).1
        w.mappingsObsmDims with
    | error e =>
      rw [hd] at h
      simp [Except.map] at h
    | ok es =>
      rw [hd] at h
      simp only [Except.map] at h
      have hrec := Except.ok.inj h
      subst hrec
      simp [AnnDataOptions.numKeys, h3]

/-- Reduction of the producer when options assembly raises. -/
theorem get_anndata_zarr_fst_error (w : AnnDataWrapper) (base_url dataset_uid : String)
    (obj_i : Nat) (e : String) (h : w.build_options.1 = .error e) :
    (w.get_anndata_zarr base_url dataset_uid obj_i).1 = .error e := by
  unfold AnnDataWrapper.get_anndata_zarr
  rw [h]

/-- Reduction of the producer when options assembly succeeds. -/
theorem get_anndata_zarr_fst_ok (w : AnnDataWrapper) (base_url dataset_uid : String)
    (obj_i : Nat) (options : AnnDataOptions) (h : w.build_options.1 = .ok options) :
    (w.get_anndata_zarr base_url dataset_uid obj_i).1 =
      if 0 < options.numKeys then
        .ok (some { fileType := ANNDATA_ZARR,
                    url := w.get_zarr_url base_url dataset_uid obj_i,
                    options := options, requestInit := w.requestInit,
                    coordinationValues := w.coordinationValues })
      else .ok none := by
  unfold AnnDataWrapper.get_anndata_zarr
  rw [h]

/-- Claim C10 (counterexample): the producer does not always return a
definition when an axis is configured.  A wrapper constructed with one
embedding path but two obs_embedding_dims entries — accepted unchecked
by the constructor — makes the dims-override loop index past the end of
the assembled embedding list, so the producer raises IndexError instead
of returning a file definition, and get_file_defs propagates the
exception. -/
theorem c10_counterexample :
    AnnDataWrapper.init (some "adata.zarr") none none none none none none none none
        (some ["obsm/X_umap"]) none (some [[0, 1], [2, 3]]) none none true none "u1" =
      .ok c10Wrapper0 ∧
    c10Wrapper0.mappingsObsm = some ["obsm/X_umap"] ∧
    (((c10Wrapper0.convert_and_save "A" 0 none).get_anndata_zarr
        "http://localhost:8000" "A" 0).1 =
      .error "IndexError: list index out of range") ∧
    (((c10Wrapper0.convert_and_save "A" 0 none).get_file_defs
        "http://localhost:8000" "A" 0).1 =
      .error "IndexError: list index out of range") := by
  exact ⟨rfl, rfl, rfl, rfl⟩

/-- Claim C10 (amended): the AnnData file-def producer yields no
definition exactly when none of the five optional data axes (spatial
centroids, segmentations, embeddings, obs sets, expression matrix) is
configured — so get_file_defs then contributes no definition and no
empty options object is ever emitted.  It raises (IndexError) exactly
when embeddings are configured with a dims list longer than the
assembled embedding entry list; and whenever at least one axis is
configured and it does not raise, it yields a definition carrying the
fileType, the resolved url, and a non-empty options object. -/
theorem c10_anndata_conditional_def (w : AnnDataWrapper) (base_url dataset_uid : String)
    (obj_i : Nat) :
    ((w.get_anndata_zarr base_url dataset_uid obj_i).1 = .ok none ↔
      (w.spatialCentroidObsm = none ∧ w.spatialPolygonObsm = none ∧
       w.mappingsObsm = none ∧ w.cellSetObs = none ∧ w.expressionMatrix = none)) ∧
    ((w.get_file_defs base_url dataset_uid obj_i).1 = .ok [] ↔
      (w.spatialCentroidObsm = none ∧ w.spatialPolygonObsm = none ∧
       w.mappingsObsm = none ∧ w.cellSetObs = none ∧ w.expressionMatrix = none)) ∧
    (exceptIsError (w.get_anndata_zarr base_url dataset_uid obj_i).1 = true ↔
      ∃ maps ds, w.mappingsObsm = some maps ∧ w.mappingsObsmDims = some ds ∧
        (obsEmbeddingEntries w.mappingsObsmNames maps).1.length < ds.length) ∧
    (¬ (w.spatialCentroidObsm = none ∧ w.spatialPolygonObsm = none ∧
        w.mappingsObsm = none ∧ w.cellSetObs = none ∧ w.expressionMatrix = none) →
      exceptIsError (w.get_anndata_zarr base_url dataset_uid obj_i).1 = false →
      ∃ fd, (w.get_anndata_zarr base_url dataset_uid obj_i).1 = .ok (some fd) ∧
        0 < fd.options.numKeys ∧ fd.fileType = ANNDATA_ZARR ∧
        fd.url = w.get_zarr_url base_url dataset_uid obj_i) := by
  have hfd_eq : (w.get_file_defs base_url dataset_uid obj_i).1 =
      ((w.get_anndata_zarr base_url dataset_uid obj_i).1).map (fun r =>
        match r with
        | some fd => [fd]
        | none => []) := rfl
  cases hbo : w.build_options.1 with
  | error e =>
    have hge := get_anndata_zarr_fst_error w base_url dataset_uid obj_i e hbo
    have herr : exceptIsError w.build_options.1 = true := by
      rw [hbo]
      rfl
    obtain ⟨maps, ds, hm, hds, hlt⟩ := (build_options_error_iff w).mp herr
    have hn : ¬ (w.spatialCentroidObsm = none ∧ w.spatialPolygonObsm = none ∧
        w.mappingsObsm = none ∧ w.cellSetObs = none ∧ w.expressionMatrix = none) := by
      rintro ⟨-, -, h3, -, -⟩
      rw [h3] at hm
      cases hm
    refine ⟨?_, ?_, ?_, ?_⟩
    · rw [hge]
      exact iff_of_false (by simp) hn
    · rw [hfd_eq, hge]
      exact iff_of_false (by simp [Except.map]) hn
    · rw [hge]
      exact iff_of_true rfl ⟨maps, ds, hm, hds, hlt⟩
    · intro _ hok
      rw [hge] at hok
      cases hok
  | ok options =>
    have hge := get_anndata_zarr_fst_ok w base_url dataset_uid obj_i options hbo
    have hriff := build_options_error_iff w
    rw [hbo] at hriff
    simp only [exceptIsError, Bool.false_eq_true, false_iff] at hriff
    by_cases hnk : 0 < options.numKeys
    · have hn := (build_options_numKeys_pos w options hbo).mp hnk
      have hsome : (w.get_anndata_zarr base_url dataset_uid obj_i).1 =
          .ok (some { fileType := ANNDATA_ZARR,
                      url := w.get_zarr_url base_url dataset_uid obj_i,
                      options := options, requestInit := w.requestInit,
                      coordinationValues := w.coordinationValues }) := by
        rw [hge, if_pos hnk]
      refine ⟨?_, ?_, ?_, ?_⟩
      · rw [hsome]
        exact iff_of_false (by simp) hn
      · rw [hfd_eq, hsome]
        exact iff_of_false (by simp [Except.map]) hn
      · rw [hsome]
        exact iff_of_false (by simp [exceptIsError]) hriff
      · intro _ _
        exact ⟨_, hsome, hnk, rfl, rfl⟩
    · have hall : w.spatialCentroidObsm = none ∧ w.spatialPolygonObsm = none ∧
          w.mappingsObsm = none ∧ w.cellSetObs = none ∧ w.expressionMatrix = none := by
        by_contra hcc
        exact hnk ((build_options_numKeys_pos w options hbo).mpr hcc)
      have hnone : (w.get_anndata_zarr base_url dataset_uid obj_i).1 = .ok none := by
        rw [hge, if_neg hnk]
      refine ⟨?_, ?_, ?_, ?_⟩
      · rw [hnone]
        exact iff_of_true rfl hall
      · rw [hfd_eq, hnone]
        exact iff_of_true (by simp [Except.map]) hall
      · rw [hnone]
        exact iff_of_false (by simp [exceptIsError]) hriff
      · intro hcon _
        exact absurd hall hcon

/-- Every member of a joined list occurs inside the join. -/
theorem pyJoin_decomp (sep : String) :
    ∀ (l : List String) (s : String), s ∈ l →
      ∃ pre post, pyJoin sep l = pre ++ s ++ post
  | [], s, h => absurd h (List.not_mem_nil s)
  | [a], s, h => by
    rw [List.mem_singleton] at h
    subst h
    refine ⟨"", "", ?_⟩
    show s = "" ++ s ++ ""
    simp
  | a :: b :: t2, s, h => by
    rcases List.mem_cons.mp h with rfl | hmem
    · refine ⟨"", sep ++ pyJoin sep (b :: t2), ?_⟩
      show s ++ sep ++ pyJoin sep (b :: t2) = "" ++ s ++ (sep ++ pyJoin sep (b :: t2))
      simp [String.append_assoc]
    · obtain ⟨pre, post, hp⟩ := pyJoin_decomp sep (b :: t2) s hmem
      refine ⟨a ++ sep ++ pre, post, ?_⟩
      show a ++ sep ++ pyJoin sep (b :: t2) = a ++ sep ++ pre ++ s ++ post
      rw [hp]
      simp [String.append_assoc]

/-- Every member of a scope list occurs inside its Python list repr. -/
theorem pyListRepr_decomp (l : List String) (s : String) (h : s ∈ l) :
    ∃ pre post, pyListRepr l = pre ++ s ++ post := by
  obtain ⟨pre, post, hp⟩ :=
    pyJoin_decomp ", " (l.map (fun x => squoteStr ++ x ++ squoteStr))
      (squoteStr ++ s ++ squoteStr) (List.mem_map_of_mem _ h)
  refine ⟨"[" ++ pre ++ squoteStr, squoteStr ++ post ++ "]", ?_⟩
  unfold pyListRepr
  rw [hp]
  simp [String.append_assoc]

/-- The ambiguous-scope message names every existing scope. -/
theorem msgMultipleScopes_decomp (ct : String) (scopes : List String) (s : String)
    (h : s ∈ scopes) : ∃ pre post, msgMultipleScopes ct scopes = pre ++ s ++ post := by
  obtain ⟨pre, post, hp⟩ := pyListRepr_decomp scopes s h
  refine ⟨"The coordination scope could not be automatically determined because multiple coordination scopes exist for the coordination type " ++
      squoteStr ++ ct ++ squoteStr ++ ". Please specify one of " ++ pre,
    post ++ " using the scope parameter.", ?_⟩
  unfold msgMultipleScopes
  rw [hp]
  simp [String.append_assoc]

/-- The unknown-scope message names every existing scope. -/
theorem msgScopeNotFound_decomp (ct s0 : String) (scopes : List String) (s : String)
    (h : s ∈ scopes) : ∃ pre post, msgScopeNotFound ct s0 scopes = pre ++ s ++ post := by
  obtain ⟨pre, post, hp⟩ := pyListRepr_decomp scopes s h
  refine ⟨"The specified coordination scope " ++ squoteStr ++ s0 ++ squoteStr ++
      " could not be found for the coordination type " ++ squoteStr ++ ct ++ squoteStr ++
      ". Known coordination scopes are " ++ pre, post, ?_⟩
  unfold msgScopeNotFound
  rw [hp]
  simp [String.append_assoc]

/-- Reduction of the lookup at an explicit scope argument. -/
theorem get_coordination_value_some {α : Type} (ct : String) (obj : List (String × α))
    (s : String) :
    get_coordination_value ct obj (some s) =
      match lookupScope obj s with
      | some v => .ok v
      | none => .error (msgScopeNotFound ct s (obj.map (fun kv => kv.1))) := rfl

/-- Reduction of the lookup with no scope argument. -/
theorem get_coordination_value_none {α : Type} (ct : String) (obj : List (String × α)) :
    get_coordination_value ct obj none =
      if (obj.map (fun kv => kv.1)).length = 1 then
        match obj.head? with
        | some kv => .ok kv.2
        | none => .error (msgNoScopes ct)
      else if 1 < (obj.map (fun kv => kv.1)).length then
        .error (msgMultipleScopes ct (obj.map (fun kv => kv.1)))
      else .error (msgNoScopes ct) := rfl

/-- Claim C7: coordination-value lookup returns the single scope's value
when no scope is given and exactly one exists; raises on zero scopes;
raises naming every existing scope when several exist and none was
specified; returns the value of an explicitly given scope when present;
and otherwise raises a message enumerating the known scopes. -/
theorem c7_coordination_lookup {α : Type} (ct : String) (obj : List (String × α)) :
    (∀ k v, obj = [(k, v)] → get_coordination_value ct obj none = .ok v) ∧
    (obj = [] → get_coordination_value ct obj none = .error (msgNoScopes ct)) ∧
    (1 < obj.length →
      get_coordination_value ct obj none =
        .error (msgMultipleScopes ct (obj.map (fun kv => kv.1))) ∧
      (∀ s, s ∈ obj.map (fun kv => kv.1) →
        ∃ pre post,
          msgMultipleScopes ct (obj.map (fun kv => kv.1)) = pre ++ s ++ post)) ∧
    (∀ s v, lookupScope obj s = some v →
      get_coordination_value ct obj (some s) = .ok v) ∧
    (∀ s, lookupScope obj s = none →
      get_coordination_value ct obj (some s) =
        .error (msgScopeNotFound ct s (obj.map (fun kv => kv.1))) ∧
      (∀ s2, s2 ∈ obj.map (fun kv => kv.1) →
        ∃ pre post,
          msgScopeNotFound ct s (obj.map (fun kv => kv.1)) = pre ++ s2 ++ post)) := by
  refine ⟨?_, ?_, ?_, ?_, ?_⟩
  · intro k v hobj
    subst hobj
    rfl
  · intro hobj
    subst hobj
    rfl
  · intro hlen
    have h1 : ¬ ((obj.map (fun kv => kv.1)).length = 1) := by
      rw [List.length_map]
      omega
    have h2 : 1 < (obj.map (fun kv => kv.1)).length := by
      rw [List.length_map]
      omega
    constructor
    · rw [get_coordination_value_none, if_neg h1, if_pos h2]
    · intro s hs
      exact msgMultipleScopes_decomp ct _ s hs
  · intro s v hl
    rw [get_coordination_value_some, hl]
  · intro s hl
    constructor
    · rw [get_coordination_value_some, hl]
    · intro s2 hs2
      exact msgScopeNotFound_decomp ct s _ s2 hs2

/-- Claim C9: with no base_dir, the CSV url is the base url followed by
the indexed route; the indexed route path is the slash-joined dataset
uid, object index, and the per-instance local csv uid minted at
construction, which conversion leaves unchanged. -/
theorem c9_indexed_csv_url (uid dataset_uid : String) (obj_i : Nat) (w : CsvWrapper)
    (h : CsvWrapper.init (some "/data/cells.csv") none (some "obs") none none uid =
      .ok w) :
    ((w.convert_and_save "A" 0 none).get_csv_url "http://localhost:8000" "A" 0 =
      "http://localhost:8000/A/0/" ++ uid) ∧
    ((w.convert_and_save "A" 0 none).local_csv_uid = uid) ∧
    ((w.convert_and_save "A" 0 none).make_csv_routes dataset_uid obj_i =
      ["/" ++ dataset_uid ++ "/" ++ toString obj_i ++ "/" ++ uid]) ∧
    (get_route_str dataset_uid obj_i [uid] =
      "/" ++ dataset_uid ++ "/" ++ toString obj_i ++ "/" ++ uid) := by
  have hw : w = { csvPath := some "/data/cells.csv", csvUrl := none,
                  dataType := some "obs", fileOptions := none, coordinationValues := none,
                  is_remote := false, base_dir := none, local_csv_uid := uid,
                  routes := [] } := by
    have h' : (Except.ok { csvPath := some "/data/cells.csv", csvUrl := none,
                           dataType := some "obs", fileOptions := none,
                           coordinationValues := none, is_remote := false,
                           base_dir := none, local_csv_uid := uid,
                           routes := [] } : Except String CsvWrapper) = .ok w := h
    exact (Except.ok.inj h').symm
  subst hw
  refine ⟨?_, rfl, ?_, ?_⟩
  · simp [CsvWrapper.convert_and_save, CsvWrapper.get_csv_url, CsvWrapper.make_csv_routes,
      get_url, get_route_str, get_url_simple, pyJoin, String.append_assoc,
      show toString (0 : Nat) = "0" from rfl]
    rw [← String.append_assoc, ← String.append_assoc, ← String.append_assoc]
    rfl
  · simp [CsvWrapper.convert_and_save, CsvWrapper.make_csv_routes, get_route_str, pyJoin,
      String.append_assoc]
  · simp [get_route_str, pyJoin, String.append_assoc]

/-- Witness for c9_indexed_csv_url at a concrete uid, dataset uid and
object index. -/
theorem c9_indexed_csv_url_witness :
    ((({ csvPath := some "/data/cells.csv", csvUrl := none, dataType := some "obs",
         fileOptions := none, coordinationValues := none, is_remote := false,
         base_dir := none, local_csv_uid := "abcd", routes := [] } :
          CsvWrapper).convert_and_save "A" 0 none).get_csv_url
        "http://localhost:8000" "A" 0 = "http://localhost:8000/A/0/" ++ "abcd") ∧
    ((({ csvPath := some "/data/cells.csv", csvUrl := none, dataType := some "obs",
         fileOptions := none, coordinationValues := none, is_remote := false,
         base_dir := none, local_csv_uid := "abcd", routes := [] } :
          CsvWrapper).convert_and_save "A" 0 none).local_csv_uid = "abcd") ∧
    ((({ csvPath := some "/data/cells.csv", csvUrl := none, dataType := some "obs",
         fileOptions := none, coordinationValues := none, is_remote := false,
         base_dir := none, local_csv_uid := "abcd", routes := [] } :
          CsvWrapper).convert_and_save "A" 0 none).make_csv_routes "B" 2 =
      ["/" ++ "B" ++ "/" ++ toString (2 : Nat) ++ "/" ++ "abcd"]) ∧
    (get_route_str "B" 2 ["abcd"] =
      "/" ++ "B" ++ "/" ++ toString (2 : Nat) ++ "/" ++ "abcd") :=
  c9_indexed_csv_url "abcd" "B" 2 _ rfl

end Vitessce
